import Mathlib

/-!
Shallow embedding of the chip8-rust virtual machine core
(src/cpu.rs and src/timers.rs) and proofs about its claims.

Machine integers are modelled as `Nat` with explicit `% 2^w` where the
Rust code wraps; `u8` loads are modelled by `% 256` at each read site.
Fallible operations (Rust panics / `Result`) are modelled with `Except`
and `Option`.  The channel sends of `Cpu::run` are modelled by returning
the list of screen snapshots a step emits.  The fields holding channel
endpoints and the RNG handle are not part of the machine state; the RNG
draw of opcode `CXNN` is supplied as an oracle argument to the step
function.
-/

namespace Chip8

/-- `const MEMORY_SIZE: usize = 4096`. -/
def MEMORY_SIZE : Nat := 4096

/-- `const PROGRAM_INIT_LOAD_POS: usize = 0x200`. -/
def PROGRAM_INIT_LOAD_POS : Nat := 0x200

/-- `const MAX_ALLOWED_PROGRAM_SIZE: usize = MEMORY_SIZE - PROGRAM_INIT_LOAD_POS`. -/
def MAX_ALLOWED_PROGRAM_SIZE : Nat := MEMORY_SIZE - PROGRAM_INIT_LOAD_POS

/-- `const FONT_START_POS: usize = 0x50`. -/
def FONT_START_POS : Nat := 0x50

/-- `const FONT_END_POS: usize = 0x9F`. -/
def FONT_END_POS : Nat := 0x9F

/-- `pub type CpuScreenMem = [u64; 32]`: row index (0..31) to 64-bit row word,
MSB = leftmost pixel. -/
def CpuScreenMem : Type := Nat → Nat

/-- `fn get_keypad_state_mask(key: u8) -> u16 { 1 << key }`.
In Rust a shift amount that is at least the bit width of the left operand
is an arithmetic-overflow error (a runtime abort under debug assertions),
not a defined value; that failing case is modelled as `none`. -/
def get_keypad_state_mask (key : Nat) : Option Nat :=
  if key < 16 then some ((1 <<< key) % 2 ^ 16) else none

/-- The machine-state fields of `struct Cpu` (channel endpoints and the RNG
handle carry no machine state and are omitted; memory and registers are
total functions standing for the fixed-size arrays). -/
structure Cpu where
  memory : Nat → Nat
  screen_pixels : CpuScreenMem
  keypad_state : Nat
  program_counter : Nat
  index_register : Nat
  stack : List Nat
  variable_registers : Nat → Nat

/-- `enum InitCpuError { ProgramTooBig { actual, allowed } }`. -/
inductive InitCpuError where
  | ProgramTooBig (actual : Nat) (allowed : Nat)
deriving DecidableEq, Repr

/-- The panics a `Cpu::run` iteration can raise, one constructor per
`panic!`/`expect` site of the dispatcher (plus the debug-mode shift
overflow inside `get_keypad_state_mask`). -/
inductive CpuError where
  /-- `panic!("{:#06x} might be a call to a machine assembly routine, ...")` -/
  | machineRoutineCall (instruction : Nat)
  /-- `.expect("Should not call 0x00EE on an empty stack.")` -/
  | emptyStackPop
  /-- `panic!("{:#06x} is not a valid 0x8 instruction.")` -/
  | invalidOp8 (instruction : Nat)
  /-- `panic!("{:#06x} is not a valid 0xE instruction.")` -/
  | invalidOpE (instruction : Nat)
  /-- shift-amount overflow in `get_keypad_state_mask` (key ≥ 16) -/
  | shiftOverflow (key : Nat)
  /-- index-out-of-bounds abort of the sprite read
  `self.memory[self.index_register + ((y - y_start) as usize)]` -/
  | memoryOutOfBounds (index : Nat)
  /-- the `unreachable!()` arm of the opcode match -/
  | unreachableOp
deriving DecidableEq, Repr

/-- The font table literal copied into memory by `Cpu::new`. -/
def fontData : List Nat :=
  [0xF0, 0x90, 0x90, 0x90, 0xF0,
   0x20, 0x60, 0x20, 0x20, 0x70,
   0xF0, 0x10, 0xF0, 0x80, 0xF0,
   0xF0, 0x10, 0xF0, 0x10, 0xF0,
   0x90, 0x90, 0xF0, 0x10, 0x10,
   0xF0, 0x80, 0xF0, 0x10, 0xF0,
   0xF0, 0x80, 0xF0, 0x90, 0xF0,
   0xF0, 0x10, 0x20, 0x40, 0x40,
   0xF0, 0x90, 0xF0, 0x90, 0xF0,
   0xF0, 0x90, 0xF0, 0x10, 0xF0,
   0xF0, 0x90, 0xF0, 0x90, 0x90,
   0xE0, 0x90, 0xE0, 0x90, 0xE0,
   0xF0, 0x80, 0x80, 0x80, 0xF0,
   0xE0, 0x90, 0x90, 0x90, 0xE0,
   0xF0, 0x80, 0xF0, 0x80, 0xF0,
   0xF0, 0x80, 0xF0, 0x80, 0x80]

/-- `copy_from_slice` into a region of the byte array, as a function update:
indices inside `[start, start + data.length)` now read from `data`. -/
def writeSlice (m : Nat → Nat) (start : Nat) (data : List Nat) : Nat → Nat :=
  fun i => if start ≤ i ∧ i < start + data.length then data.getD (i - start) 0 else m i

/-- `Cpu::new`: zeroed memory, program copied to `0x200`, font copied to
`[0x50, 0x9F]`, all registers cleared, `pc = 0x200`. -/
def Cpu.new (program : List Nat) : Except InitCpuError Cpu :=
  if program.length > MAX_ALLOWED_PROGRAM_SIZE then
    .error (.ProgramTooBig program.length MAX_ALLOWED_PROGRAM_SIZE)
  else
    .ok
      { memory := writeSlice (writeSlice (fun _ => 0) PROGRAM_INIT_LOAD_POS program)
          FONT_START_POS fontData
        screen_pixels := fun _ => 0
        keypad_state := 0
        program_counter := PROGRAM_INIT_LOAD_POS
        index_register := 0
        stack := []
        variable_registers := fun _ => 0 }

/-- The 16-bit fetch `(memory[pc] as u16) << 8 + memory[pc + 1] as u16`
(`% 256` models the `u8` element type of `memory`). -/
def fetchWord (c : Cpu) : Nat :=
  (c.memory c.program_counter % 256) * 256 + c.memory (c.program_counter + 1) % 256

/-- `u8::wrapping_add`. -/
def wadd8 (a b : Nat) : Nat := (a + b) % 256

/-- `u8::wrapping_sub` (for byte-sized operands this is `(a + 256 - b) % 256`). -/
def wsub8 (a b : Nat) : Nat := (a + (256 - b % 256)) % 256

/-- One row of the `DXYN` sprite loop's mask computation:
`match x_start.cmp(&56) { Equal => b, Less => b << (56 - x_start), Greater => b >> (x_start - 56) }`
on `u64`. -/
def spriteMask (x_start byte : Nat) : Nat :=
  if x_start = 56 then byte
  else if x_start < 56 then (byte <<< (56 - x_start)) % 2 ^ 64
  else byte >>> (x_start - 56)

/-- The body of the `for_each` in the `DXYN` handler: reads the sprite byte
for row `y` — the array indexing `memory[index + (y - y_start)]` aborts
with an index-out-of-bounds panic when the index reaches 4096, modelled as
an `Except.error` that the rest of the row loop propagates — masks it to
the target column, records a collision in the flag accumulator and XORs it
into the screen row. -/
def drawStep (mem : Nat → Nat) (index y_start x_start : Nat)
    (acc : Except CpuError ((Nat → Nat) × Nat)) (y : Nat) :
    Except CpuError ((Nat → Nat) × Nat) :=
  match acc with
  | .error e => .error e
  | .ok (s, v) =>
      if index + (y - y_start) < MEMORY_SIZE then
        let nth_byte := mem (index + (y - y_start)) % 256
        let mask := spriteMask x_start nth_byte
        let vf := if mask &&& s y ≠ 0 then 1 else v
        .ok (Function.update s y (s y ^^^ mask), vf)
      else .error (.memoryOutOfBounds (index + (y - y_start)))

/-- The in-bounds restriction of `drawStep` (the row body with the sprite
read known to succeed), used to state what the loop computes when no read
aborts. -/
def drawStepPure (mem : Nat → Nat) (index y_start x_start : Nat)
    (acc : (Nat → Nat) × Nat) (y : Nat) : (Nat → Nat) × Nat :=
  let nth_byte := mem (index + (y - y_start)) % 256
  let mask := spriteMask x_start nth_byte
  let vf := if mask &&& acc.1 y ≠ 0 then 1 else acc.2
  (Function.update acc.1 y (acc.1 y ^^^ mask), vf)

/-- The row list of the `DXYN` handler:
`(y_start..(y_start + n)).filter(|y| (*y as usize) < 32)`. -/
def drawRows (y_start n : Nat) : List Nat :=
  ((List.range n).map (fun i => y_start + i)).filter (fun y => y < 32)

/-- One fetch-decode-execute iteration of the `loop` in `Cpu::run`
(event draining and the pacing sleep are outside the machine state;
`rand` is the oracle for `rng.gen::<u8>()`).  Returns the successor state
together with the list of screen snapshots sent on the screen channel,
or the error of the panic the iteration hits. -/
def Cpu.step (c₀ : Cpu) (rand : Nat) : Except CpuError (Cpu × List CpuScreenMem) :=
  let instruction := fetchWord c₀
  let c := { c₀ with program_counter := c₀.program_counter + 2 }
  let op := instruction / 4096 % 16
  let x := instruction / 256 % 16
  let y := instruction / 16 % 16
  let n := instruction % 16
  let nn := instruction % 256
  let nnn := instruction % 4096
  let regs := c.variable_registers
  -- each branch yields (state, skip flag, emitted snapshots)
  let body : Except CpuError (Cpu × Bool × List CpuScreenMem) :=
    if op = 0x0 then
      if nnn = 0xE0 then
        .ok ({ c with screen_pixels := fun _ => 0 }, false, [fun _ => 0])
      else if nnn = 0xEE then
        match c.stack with
        | [] => .error .emptyStackPop
        | top :: rest => .ok ({ c with program_counter := top, stack := rest }, false, [])
      else .error (.machineRoutineCall instruction)
    else if op = 0x1 then
      .ok ({ c with program_counter := nnn }, false, [])
    else if op = 0x2 then
      .ok ({ c with stack := c.program_counter % 2 ^ 16 :: c.stack,
                    program_counter := nnn }, false, [])
    else if op = 0x3 then
      .ok (c, if regs x = nn then true else false, [])
    else if op = 0x4 then
      .ok (c, if regs x ≠ nn then true else false, [])
    else if op = 0x5 then
      .ok (c, if regs x = regs y then true else false, [])
    else if op = 0x6 then
      .ok ({ c with variable_registers := Function.update regs x nn }, false, [])
    else if op = 0x7 then
      .ok ({ c with variable_registers := Function.update regs x (wadd8 (regs x) nn) },
        false, [])
    else if op = 0x8 then
      if n = 0x0 then
        .ok ({ c with variable_registers := Function.update regs x (regs y) }, false, [])
      else if n = 0x1 then
        .ok ({ c with variable_registers := Function.update regs x (regs x ||| regs y) },
          false, [])
      else if n = 0x2 then
        .ok ({ c with variable_registers := Function.update regs x (regs x &&& regs y) },
          false, [])
      else if n = 0x3 then
        .ok ({ c with variable_registers := Function.update regs x (regs x ^^^ regs y) },
          false, [])
      else if n = 0x4 then
        let sum := regs x + regs y
        let regs₁ := Function.update regs 0xF (if 256 ≤ sum then 1 else 0)
        .ok ({ c with variable_registers := Function.update regs₁ x (sum % 256) },
          false, [])
      else if n = 0x5 then
        let regs₁ := Function.update regs 0xF (if regs y < regs x then 1 else 0)
        .ok ({ c with
          variable_registers := Function.update regs₁ x (wsub8 (regs₁ x) (regs₁ y)) },
          false, [])
      else if n = 0x6 then
        let regs₁ := Function.update regs 0xF (regs x &&& 1)
        .ok ({ c with variable_registers := Function.update regs₁ x (regs₁ x >>> 1) },
          false, [])
      else if n = 0x7 then
        let regs₁ := Function.update regs 0xF (if regs x < regs y then 1 else 0)
        .ok ({ c with
          variable_registers := Function.update regs₁ x (wsub8 (regs₁ y) (regs₁ x)) },
          false, [])
      else if n = 0xE then
        let regs₁ := Function.update regs 0xF ((regs x &&& 0x80) >>> 7)
        .ok ({ c with
          variable_registers := Function.update regs₁ x ((regs₁ x <<< 1) % 256) },
          false, [])
      else .error (.invalidOp8 instruction)
    else if op = 0x9 then
      .ok (c, if regs x ≠ regs y then true else false, [])
    else if op = 0xA then
      .ok ({ c with index_register := nnn }, false, [])
    else if op = 0xB then
      .ok ({ c with program_counter := nnn + regs 0x0 }, false, [])
    else if op = 0xC then
      .ok ({ c with variable_registers := Function.update regs x (rand % 256 &&& nn) },
        false, [])
    else if op = 0xD then
      let x_start := regs x % 64
      let y_start := regs y % 32
      match (drawRows y_start n).foldl
          (drawStep c.memory c.index_register y_start x_start)
          (.ok (c.screen_pixels, 0)) with
      | .error e => .error e
      | .ok res =>
          .ok ({ c with screen_pixels := res.1,
                        variable_registers := Function.update regs 0xF res.2 },
            false, [res.1])
    else if op = 0xE then
      if nn = 0x9E then
        match get_keypad_state_mask (regs x) with
        | some m => .ok (c, if c.keypad_state &&& m ≠ 0 then true else false, [])
        | none => .error (.shiftOverflow (regs x))
      else if nn = 0xA1 then
        match get_keypad_state_mask (regs x) with
        | some m => .ok (c, if c.keypad_state &&& m = 0 then true else false, [])
        | none => .error (.shiftOverflow (regs x))
      else .error (.invalidOpE instruction)
    else if op = 0xF then
      -- `// TODO: Actually implement 0xF` — the handler body is empty
      .ok (c, false, [])
    else .error .unreachableOp
  body.map fun r =>
    (if r.2.1 then { r.1 with program_counter := r.1.program_counter + 2 } else r.1, r.2.2)

/-- The body of the `loop` in `Timer::run`: decrement the counter when it is
nonzero, leave it at zero otherwise. -/
def Timer.tick (value : Nat) : Nat :=
  if value ≠ 0 then value - 1 else value

end Chip8

namespace Chip8

/-- The memory function produced by a successful `Cpu::new`. -/
def initMemory (p : List Nat) : Nat → Nat :=
  writeSlice (writeSlice (fun _ => 0) PROGRAM_INIT_LOAD_POS p) FONT_START_POS fontData

/-- After `n` ticks of `Timer::run` starting from counter value `n`, the
counter is zero. -/
theorem tick_iterate_self (n : Nat) : Timer.tick^[n] n = 0 := by
  induction n with
  | zero => rfl
  | succ k ih =>
      rw [Function.iterate_succ_apply]
      have : Timer.tick (k + 1) = k := by simp [Timer.tick]
      rw [this, ih]

/-- C8: for every counter value `n ≤ 255`, after exactly `n` ticks of the
timer loop the counter equals 0, one further tick leaves it at 0, a tick
decrements a nonzero counter by exactly 1, and a tick never takes the
counter below zero (never wraps). -/
theorem timer_countdown (n : Nat) (h : n ≤ 255) :
    Timer.tick^[n] n = 0 ∧ Timer.tick (Timer.tick^[n] n) = 0 ∧
    (∀ v, v ≤ 255 → v ≠ 0 → Timer.tick v = v - 1) ∧
    (∀ v, v ≤ 255 → Timer.tick v ≤ v) := by
  refine ⟨tick_iterate_self n, ?_, ?_, ?_⟩
  · rw [tick_iterate_self n]; rfl
  · intro v _ hv; simp [Timer.tick, hv]
  · intro v _; unfold Timer.tick; split <;> omega

/-- Witness for `timer_countdown` at `n = 3`. -/
theorem timer_countdown_witness :
    (3 : Nat) ≤ 255 ∧ (Timer.tick^[3] 3 = 0 ∧ Timer.tick (Timer.tick^[3] 3) = 0 ∧
      (∀ v, v ≤ 255 → v ≠ 0 → Timer.tick v = v - 1) ∧
      (∀ v, v ≤ 255 → Timer.tick v ≤ v)) :=
  ⟨by decide, timer_countdown 3 (by decide)⟩

/-- C10: `get_keypad_state_mask` is `1 << key` on a 16-bit word; for
`key ≤ 15` it yields the single-bit mask `2 ^ key`, under which the key
test used by `EX9E`/`EXA1` agrees with bit `key` of the keypad bitmask;
for `key ≥ 16` the shift amount reaches the word width and the call is an
arithmetic-overflow error, not a "key not held" result. -/
theorem keypad_mask_spec :
    (∀ key : Nat, key ≤ 15 →
      get_keypad_state_mask key = some (2 ^ key) ∧
      ∀ keypad : Nat, (keypad &&& 2 ^ key ≠ 0 ↔ keypad.testBit key)) ∧
    (∀ key : Nat, 16 ≤ key → get_keypad_state_mask key = none) := by
  constructor
  · intro key hkey
    constructor
    · unfold get_keypad_state_mask
      rw [if_pos (by omega)]
      congr 1
      rw [Nat.shiftLeft_eq, one_mul, Nat.mod_eq_of_lt]
      exact Nat.pow_lt_pow_right (by norm_num) (by omega)
    · intro keypad
      rw [Nat.and_two_pow]
      rcases Bool.eq_false_or_eq_true (keypad.testBit key) with hb | hb <;>
        simp [hb]
  · intro key hkey
    unfold get_keypad_state_mask
    rw [if_neg (by omega)]

/-- Witness for `keypad_mask_spec` at `key = 5` (in range) and `key = 20`
(out of range). -/
theorem keypad_mask_spec_witness :
    ((get_keypad_state_mask 5 = some (2 ^ 5) ∧
        ((0b100000 : Nat) &&& 2 ^ 5 ≠ 0 ↔ (0b100000 : Nat).testBit 5)) ∧
      get_keypad_state_mask 20 = none) :=
  ⟨⟨(keypad_mask_spec.1 5 (by decide)).1,
    (keypad_mask_spec.1 5 (by decide)).2 0b100000⟩,
    keypad_mask_spec.2 20 (by decide)⟩

/-- C5: a program of at most 3584 bytes loads at `0x200` over an otherwise
zeroed memory with the font table at `[0x50, 0x9F]`; a longer program makes
`Cpu::new` fail with exactly `ProgramTooBig { actual = len, allowed = 3584 }`
and no machine is constructed. -/
theorem cpu_new_spec (p : List Nat) :
    (p.length ≤ 3584 →
      ∃ c, Cpu.new p = .ok c ∧
        (∀ i, i < p.length → c.memory (0x200 + i) = p.getD i 0) ∧
        (∀ i, 0x50 ≤ i → i ≤ 0x9F → c.memory i = fontData.getD (i - 0x50) 0) ∧
        (∀ i, ¬(0x50 ≤ i ∧ i ≤ 0x9F) → ¬(0x200 ≤ i ∧ i < 0x200 + p.length) →
          c.memory i = 0)) ∧
    (3584 < p.length → Cpu.new p = .error (.ProgramTooBig p.length 3584)) := by
  have hmax : MAX_ALLOWED_PROGRAM_SIZE = 3584 := by
    norm_num [MAX_ALLOWED_PROGRAM_SIZE, MEMORY_SIZE, PROGRAM_INIT_LOAD_POS]
  have hfont : fontData.length = 80 := by rfl
  constructor
  · intro hle
    refine ⟨{ memory := initMemory p, screen_pixels := fun _ => 0, keypad_state := 0,
              program_counter := PROGRAM_INIT_LOAD_POS, index_register := 0,
              stack := [], variable_registers := fun _ => 0 }, ?_, ?_, ?_, ?_⟩
    · unfold Cpu.new initMemory
      rw [if_neg (by omega)]
    · intro i hi
      show initMemory p (0x200 + i) = p.getD i 0
      simp only [initMemory, writeSlice, FONT_START_POS, PROGRAM_INIT_LOAD_POS, hfont]
      rw [if_neg (by omega), if_pos (by omega), Nat.add_sub_cancel_left]
    · intro i h1 h2
      show initMemory p i = fontData.getD (i - 0x50) 0
      simp only [initMemory, writeSlice, FONT_START_POS, hfont]
      rw [if_pos (by omega)]
    · intro i h1 h2
      show initMemory p i = 0
      simp only [initMemory, writeSlice, FONT_START_POS, PROGRAM_INIT_LOAD_POS, hfont]
      rw [if_neg (by omega), if_neg (by omega)]
  · intro hgt
    unfold Cpu.new
    rw [if_pos (by omega), hmax]

/-- Witness for `cpu_new_spec`: a two-byte program loads successfully, and a
3585-byte program is rejected with the exact `(actual, allowed)` pair. -/
theorem cpu_new_spec_witness :
    ((∃ c, Cpu.new [0xAB, 0xCD] = .ok c ∧
        (∀ i, i < [0xAB, 0xCD].length → c.memory (0x200 + i) = [0xAB, 0xCD].getD i 0) ∧
        (∀ i, 0x50 ≤ i → i ≤ 0x9F → c.memory i = fontData.getD (i - 0x50) 0) ∧
        (∀ i, ¬(0x50 ≤ i ∧ i ≤ 0x9F) → ¬(0x200 ≤ i ∧ i < 0x200 + [0xAB, 0xCD].length) →
          c.memory i = 0)) ∧
      Cpu.new (List.replicate 3585 0) =
        .error (.ProgramTooBig (List.replicate 3585 0).length 3584)) :=
  ⟨(cpu_new_spec [0xAB, 0xCD]).1 (by norm_num),
    (cpu_new_spec (List.replicate 3585 0)).2 (by rw [List.length_replicate]; omega)⟩

end Chip8

namespace Chip8

/-- A freshly initialized machine holding `prog` (the success state of
`Cpu::new prog`), used as concrete test input. -/
def sampleCpu (prog : List Nat) : Cpu :=
  { memory := writeSlice (writeSlice (fun _ => 0) PROGRAM_INIT_LOAD_POS prog)
      FONT_START_POS fontData
    screen_pixels := fun _ => 0
    keypad_state := 0
    program_counter := PROGRAM_INIT_LOAD_POS
    index_register := 0
    stack := []
    variable_registers := fun _ => 0 }

/-- C1 (amended): unrecognized patterns in the `0x0`, `0x8` and `0xE`
families are fatal, diagnosable errors carrying the raw instruction word;
but every word of the `0xF` family is executed as a silent no-op that
leaves all machine state unchanged except the program counter (the `0xF`
handler body is an unimplemented TODO). -/
theorem unknown_opcode_cases (c : Cpu) (rand : Nat) :
    (fetchWord c / 4096 % 16 = 0x0 → fetchWord c % 4096 ≠ 0xE0 → fetchWord c % 4096 ≠ 0xEE →
      Cpu.step c rand = .error (.machineRoutineCall (fetchWord c))) ∧
    (fetchWord c / 4096 % 16 = 0x8 →
      fetchWord c % 16 ≠ 0x0 → fetchWord c % 16 ≠ 0x1 → fetchWord c % 16 ≠ 0x2 →
      fetchWord c % 16 ≠ 0x3 → fetchWord c % 16 ≠ 0x4 → fetchWord c % 16 ≠ 0x5 →
      fetchWord c % 16 ≠ 0x6 → fetchWord c % 16 ≠ 0x7 → fetchWord c % 16 ≠ 0xE →
      Cpu.step c rand = .error (.invalidOp8 (fetchWord c))) ∧
    (fetchWord c / 4096 % 16 = 0xE → fetchWord c % 256 ≠ 0x9E → fetchWord c % 256 ≠ 0xA1 →
      Cpu.step c rand = .error (.invalidOpE (fetchWord c))) ∧
    (fetchWord c / 4096 % 16 = 0xF →
      Cpu.step c rand = .ok ({ c with program_counter := c.program_counter + 2 }, [])) := by
  refine ⟨?_, ?_, ?_, ?_⟩
  · intro h0 h1 h2
    simp only [Cpu.step, h0, h1, h2]
    norm_num [Except.map]
  · intro h0 h1 h2 h3 h4 h5 h6 h7 h8 h9
    simp only [Cpu.step, h0, h1, h2, h3, h4, h5, h6, h7, h8, h9]
    norm_num [Except.map]
  · intro h0 h1 h2
    simp only [Cpu.step, h0, h1, h2]
    norm_num [Except.map]
  · intro h0
    simp only [Cpu.step, h0]
    norm_num [Except.map]

/-- Witness for `unknown_opcode_cases`: concrete machines executing
`0x0123`, `0x8018`, `0xE011` and `0xF015`. -/
theorem unknown_opcode_cases_witness :
    Cpu.step (sampleCpu [0x01, 0x23]) 0 = .error (.machineRoutineCall 0x0123) ∧
    Cpu.step (sampleCpu [0x80, 0x18]) 0 = .error (.invalidOp8 0x8018) ∧
    Cpu.step (sampleCpu [0xE0, 0x11]) 0 = .error (.invalidOpE 0xE011) ∧
    Cpu.step (sampleCpu [0xF0, 0x15]) 0 =
      .ok ({ sampleCpu [0xF0, 0x15] with program_counter := 0x200 + 2 }, []) := by
  refine ⟨?_, ?_, ?_, ?_⟩
  · have h := (unknown_opcode_cases (sampleCpu [0x01, 0x23]) 0).1
      (by decide) (by decide) (by decide)
    rw [h]; rfl
  · have h := (unknown_opcode_cases (sampleCpu [0x80, 0x18]) 0).2.1
      (by decide) (by decide) (by decide) (by decide) (by decide) (by decide)
      (by decide) (by decide) (by decide) (by decide)
    rw [h]; rfl
  · have h := (unknown_opcode_cases (sampleCpu [0xE0, 0x11]) 0).2.2.1
      (by decide) (by decide) (by decide)
    rw [h]; rfl
  · exact (unknown_opcode_cases (sampleCpu [0xF0, 0x15]) 0).2.2.2 (by decide)

/-- C1 counterexample: executing the `FX`-family word `0xF015` is not an
error — it succeeds, emits nothing, and changes nothing but the program
counter, refuting "every word of the FX family is a fatal, diagnosable
error ... never a silent no-op". -/
theorem fx_silent_noop_counterexample :
    Cpu.step (sampleCpu [0xF0, 0x15]) 0 =
      .ok ({ sampleCpu [0xF0, 0x15] with program_counter := 0x202 }, []) := by
  rfl

/-- C2 (amended): `00EE` on an empty call stack is a fatal, diagnosable
error (`emptyStackPop`); but `2NNN` never fails — the `Vec`-backed stack
grows beyond its initial capacity of 16, so the 17th nested call succeeds
and execution continues at `NNN`. -/
theorem stack_ops_behavior (c : Cpu) (rand : Nat) :
    (fetchWord c = 0x00EE → c.stack = [] → Cpu.step c rand = .error .emptyStackPop) ∧
    (fetchWord c / 4096 % 16 = 0x2 →
      Cpu.step c rand = .ok ({ c with
        stack := (c.program_counter + 2) % 2 ^ 16 :: c.stack,
        program_counter := fetchWord c % 4096 }, [])) := by
  constructor
  · intro hfw hstack
    simp only [Cpu.step, hfw, hstack]
    norm_num [Except.map]
  · intro hop
    simp only [Cpu.step, hop]
    norm_num [Except.map]

/-- Witness for `stack_ops_behavior`: `00EE` on the initial (empty) stack
fails; a call on the fresh machine succeeds. -/
theorem stack_ops_behavior_witness :
    Cpu.step (sampleCpu [0x00, 0xEE]) 0 = .error .emptyStackPop ∧
    Cpu.step (sampleCpu [0x23, 0x45]) 0 =
      .ok ({ sampleCpu [0x23, 0x45] with
        stack := (0x200 + 2) % 2 ^ 16 :: (sampleCpu [0x23, 0x45]).stack,
        program_counter := fetchWord (sampleCpu [0x23, 0x45]) % 4096 }, []) :=
  ⟨(stack_ops_behavior (sampleCpu [0x00, 0xEE]) 0).1 (by decide) rfl,
    (stack_ops_behavior (sampleCpu [0x23, 0x45]) 0).2 (by decide)⟩

/-- C2 counterexample: a call executed with 16 return addresses already on
the stack does not fail — it returns `ok`, the stack now has 17 entries and
execution continues at `NNN = 0x345`, refuting "executing 2NNN when the
call stack already holds 16 return addresses is a fatal error ...
neither continues execution". -/
theorem call_on_full_stack_counterexample :
    (Cpu.step { sampleCpu [0x23, 0x45] with
        stack := [1, 2, 3, 4, 5, 6, 7, 8, 9, 10, 11, 12, 13, 14, 15, 16] } 0).map
      (fun r => (r.1.stack.length, r.1.program_counter)) = .ok (17, 0x345) := by
  rfl

/-- C7: `2NNN` followed by `00EE` (stack otherwise undisturbed) leaves the
program counter at the instruction immediately after the call — the
original `pc` plus 2 — for any in-bounds starting `pc` and target `NNN`. -/
theorem call_return_roundtrip (c : Cpu) (r1 r2 : Nat)
    (hpc : c.program_counter + 1 < 4096)
    (hop : fetchWord c / 4096 % 16 = 0x2)
    (hnnn : fetchWord c % 4096 + 1 < 4096)
    (hb0 : c.memory (fetchWord c % 4096) % 256 = 0x00)
    (hb1 : c.memory (fetchWord c % 4096 + 1) % 256 = 0xEE) :
    ∃ c₁ e₁ c₂ e₂, Cpu.step c r1 = .ok (c₁, e₁) ∧ Cpu.step c₁ r2 = .ok (c₂, e₂) ∧
      c₂.program_counter = c.program_counter + 2 := by
  have h1 : Cpu.step c r1 = .ok ({ c with
      stack := (c.program_counter + 2) % 2 ^ 16 :: c.stack,
      program_counter := fetchWord c % 4096 }, []) := by
    simp only [Cpu.step, hop]
    norm_num [Except.map]
  set c₁ : Cpu := { c with
      stack := (c.program_counter + 2) % 2 ^ 16 :: c.stack,
      program_counter := fetchWord c % 4096 } with hc₁
  have hfw1 : fetchWord c₁ = 0xEE := by
    show c₁.memory c₁.program_counter % 256 * 256 + c₁.memory (c₁.program_counter + 1) % 256 =
      0xEE
    rw [hc₁]
    simp only []
    rw [hb0, hb1]
  have h2 : Cpu.step c₁ r2 = .ok ({ c₁ with
      program_counter := (c.program_counter + 2) % 2 ^ 16,
      stack := c.stack }, []) := by
    simp only [Cpu.step, hfw1, hc₁]
    norm_num [Except.map]
  refine ⟨c₁, [], _, [], h1, h2, ?_⟩
  show (c.program_counter + 2) % 2 ^ 16 = c.program_counter + 2
  omega

/-- Witness for `call_return_roundtrip`: call `0x2208` at `0x200`, `00EE`
at `0x208`; the round trip ends with `pc = 0x202`. -/
theorem call_return_roundtrip_witness :
    ∃ c₁ e₁ c₂ e₂,
      Cpu.step (sampleCpu [0x22, 0x08, 0, 0, 0, 0, 0, 0, 0x00, 0xEE]) 0 = .ok (c₁, e₁) ∧
      Cpu.step c₁ 0 = .ok (c₂, e₂) ∧
      c₂.program_counter = (sampleCpu [0x22, 0x08, 0, 0, 0, 0, 0, 0, 0x00, 0xEE]).program_counter + 2 :=
  call_return_roundtrip (sampleCpu [0x22, 0x08, 0, 0, 0, 0, 0, 0, 0x00, 0xEE]) 0 0
    (by decide) (by decide) (by decide) (by decide) (by decide)

end Chip8

namespace Chip8

/-- Test state for the subtraction flag: `V0 = 7`, `V1 = 5`, program `8015`. -/
def subTestCpu : Cpu :=
  { sampleCpu [0x80, 0x15] with
    variable_registers := fun i => if i = 0 then 7 else if i = 1 then 5 else 0 }

/-- Test state with equal operands: `V0 = V1 = 5`, program `8015`. -/
def subEqTestCpu : Cpu :=
  { sampleCpu [0x80, 0x15] with
    variable_registers := fun i => if i = 0 ∨ i = 1 then 5 else 0 }

/-- C3 (amended): for byte operands and selectors `x ≠ 0xF`, `y ≠ 0xF`,
`8XY5` sets `VF = 1` iff `Vx > Vy` STRICTLY (and `8XY7` iff `Vy > Vx`),
sets `VF = 0` otherwise — in particular `VF = 0` when minuend equals
subtrahend — and stores the difference wrapped modulo 256 in `Vx`. -/
theorem sub_flag_strict (c : Cpu) (rand x y : Nat)
    (hx : x < 16) (hy : y < 16) (hxF : x ≠ 0xF) (hyF : y ≠ 0xF)
    (ha : c.variable_registers x < 256) (hb : c.variable_registers y < 256) :
    (fetchWord c = 0x8005 + 256 * x + 16 * y →
      ∃ c' e, Cpu.step c rand = .ok (c', e) ∧
        c'.variable_registers 0xF =
          (if c.variable_registers y < c.variable_registers x then 1 else 0) ∧
        (c'.variable_registers 0xF = 1 ↔ c.variable_registers y < c.variable_registers x) ∧
        c'.variable_registers x =
          (c.variable_registers x + 256 - c.variable_registers y) % 256) ∧
    (fetchWord c = 0x8007 + 256 * x + 16 * y →
      ∃ c' e, Cpu.step c rand = .ok (c', e) ∧
        c'.variable_registers 0xF =
          (if c.variable_registers x < c.variable_registers y then 1 else 0) ∧
        (c'.variable_registers 0xF = 1 ↔ c.variable_registers x < c.variable_registers y) ∧
        c'.variable_registers x =
          (c.variable_registers y + 256 - c.variable_registers x) % 256) := by
  constructor
  · intro hfw
    have hop : fetchWord c / 4096 % 16 = 8 := by omega
    have hxx : fetchWord c / 256 % 16 = x := by omega
    have hyy : fetchWord c / 16 % 16 = y := by omega
    have hn : fetchWord c % 16 = 5 := by omega
    simp only [Cpu.step, hop, hxx, hyy, hn]
    norm_num [Except.map]
    refine ⟨?_, ?_, ?_⟩
    · rw [Function.update_noteq (Ne.symm hxF), Function.update_same]
    · rw [Function.update_noteq (Ne.symm hxF), Function.update_same]
      by_cases hba : c.variable_registers y < c.variable_registers x <;> simp [hba]
    · rw [hxx, hyy, Function.update_noteq hxF, Function.update_noteq hyF]
      unfold wsub8
      rw [Nat.mod_eq_of_lt hb]
      omega
  · intro hfw
    have hop : fetchWord c / 4096 % 16 = 8 := by omega
    have hxx : fetchWord c / 256 % 16 = x := by omega
    have hyy : fetchWord c / 16 % 16 = y := by omega
    have hn : fetchWord c % 16 = 7 := by omega
    simp only [Cpu.step, hop, hxx, hyy, hn]
    norm_num [Except.map]
    refine ⟨?_, ?_, ?_⟩
    · rw [Function.update_noteq (Ne.symm hxF), Function.update_same]
    · rw [Function.update_noteq (Ne.symm hxF), Function.update_same]
      by_cases hba : c.variable_registers x < c.variable_registers y <;> simp [hba]
    · rw [hxx, hyy, Function.update_noteq hxF, Function.update_noteq hyF]
      unfold wsub8
      rw [Nat.mod_eq_of_lt ha]
      omega

/-- Witness for `sub_flag_strict`: `V0 = 7`, `V1 = 5`, executing `8015`. -/
theorem sub_flag_strict_witness :
    ∃ c' e, Cpu.step subTestCpu 0 = .ok (c', e) ∧
      c'.variable_registers 0xF =
        (if subTestCpu.variable_registers 1 < subTestCpu.variable_registers 0 then 1 else 0) ∧
      (c'.variable_registers 0xF = 1 ↔
        subTestCpu.variable_registers 1 < subTestCpu.variable_registers 0) ∧
      c'.variable_registers 0 =
        (subTestCpu.variable_registers 0 + 256 - subTestCpu.variable_registers 1) % 256 :=
  (sub_flag_strict subTestCpu 0 0 1 (by decide) (by decide) (by decide) (by decide)
    (by decide) (by decide)).1 (by decide)

/-- C3 counterexample: with `V0 = V1 = 5`, `8015` leaves `VF = 0` (the code
tests strict `>`), refuting "when minuend equals subtrahend, VF is set
to 1"; the difference `0` is stored in `V0`. -/
theorem sub_flag_equal_counterexample :
    (Cpu.step subEqTestCpu 0).map
      (fun r => (r.1.variable_registers 0xF, r.1.variable_registers 0)) = .ok (0, 0) := by
  rfl

/-- The row list drawn by `DXYN` has no duplicates. -/
theorem drawRows_nodup (y_start n : Nat) : (drawRows y_start n).Nodup := by
  unfold drawRows
  apply List.Nodup.filter
  exact List.Nodup.map (fun a b hab => by omega) (List.nodup_range _)

/-- Membership in the `DXYN` row list: the rows `y_start + i` for `i < n`
that lie below row 32. -/
theorem mem_drawRows (y_start n r : Nat) :
    r ∈ drawRows y_start n ↔ (∃ i, i < n ∧ r = y_start + i) ∧ r < 32 := by
  unfold drawRows
  simp only [List.mem_filter, List.mem_map, List.mem_range, decide_eq_true_eq]
  constructor
  · rintro ⟨⟨i, hi, rfl⟩, h32⟩
    exact ⟨⟨i, hi, rfl⟩, h32⟩
  · rintro ⟨⟨i, hi, rfl⟩, h32⟩
    exact ⟨⟨i, hi, rfl⟩, h32⟩

/-- Once a sprite read has aborted, the rest of the row loop propagates the
abort unchanged. -/
theorem drawFold_error_absorb (mem : Nat → Nat) (index y_start x_start : Nat)
    (rows : List Nat) (e : CpuError) :
    rows.foldl (drawStep mem index y_start x_start) (.error e) = .error e := by
  induction rows with
  | nil => rfl
  | cons yy t ih =>
      rw [List.foldl_cons]
      exact ih

/-- When every drawn row's sprite read is within the 4096-byte memory, the
row loop completes and computes the in-bounds fold. -/
theorem drawFold_ok_of_inbounds (mem : Nat → Nat) (index y_start x_start : Nat)
    (rows : List Nat) (hb : ∀ r ∈ rows, index + (r - y_start) < MEMORY_SIZE) :
    ∀ (s : Nat → Nat) (v : Nat),
      rows.foldl (drawStep mem index y_start x_start) (.ok (s, v)) =
        .ok (rows.foldl (drawStepPure mem index y_start x_start) (s, v)) := by
  induction rows with
  | nil => intro s v; rfl
  | cons yy t ih =>
      intro s v
      rw [List.foldl_cons, List.foldl_cons]
      rw [show drawStep mem index y_start x_start (.ok (s, v)) yy =
        .ok (drawStepPure mem index y_start x_start (s, v) yy) from by
          simp only [drawStep, drawStepPure]
          rw [if_pos (hb yy (List.mem_cons_self _ _))]]
      exact ih (fun r hr => hb r (List.mem_cons_of_mem _ hr)) _ _

/-- The precise per-row in-bounds condition follows from bounding the reads
of the rows that are actually drawn. -/
theorem drawRows_inbounds (index y_start n : Nat)
    (h : ∀ i, i < n → y_start + i < 32 → index + i < 4096) :
    ∀ r ∈ drawRows y_start n, index + (r - y_start) < MEMORY_SIZE := by
  intro r hr
  rcases (mem_drawRows _ _ _).mp hr with ⟨⟨i, hi, rfl⟩, h32⟩
  rw [Nat.add_sub_cancel_left]
  exact h i hi h32

/-- The collision flag accumulated by the `DXYN` row loop is always 0 or 1
when it starts as 0 or 1. -/
theorem drawFold_vf_zero_or_one (mem : Nat → Nat) (index y_start x_start : Nat)
    (rows : List Nat) :
    ∀ (s : Nat → Nat) (v : Nat), v = 0 ∨ v = 1 →
      ((rows.foldl (drawStepPure mem index y_start x_start) (s, v)).2 = 0 ∨
       (rows.foldl (drawStepPure mem index y_start x_start) (s, v)).2 = 1) := by
  induction rows with
  | nil => intro s v hv; exact hv
  | cons yy t ih =>
      intro s v hv
      rw [List.foldl_cons]
      refine ih _ _ ?_
      simp only [drawStepPure]
      split
      · right; rfl
      · exact hv

/-- C4 (amended): after each flag-writing opcode, `VF` is exactly 0 or
exactly 1, fully overwritten — for `8XY4`, `8XY5`, `8XY7`, `8XYE` under
the proviso `x ≠ 0xF` (when `x = 0xF` the subsequent result write lands on
`VF` itself and can leave a non-flag value), and for `8XY6` and `DXYN` for
every selector `x` including `0xF`; for `DXYN` additionally provided every
drawn row's sprite read `index + i` stays inside the 4096-byte memory (an
out-of-bounds read aborts the instruction instead of completing it). -/
theorem flag_writes_zero_or_one (c : Cpu) (rand x y n : Nat)
    (hx : x < 16) (hy : y < 16) (hn : n < 16) :
    (fetchWord c = 0x8004 + 256 * x + 16 * y → x ≠ 0xF →
      ∃ c' e, Cpu.step c rand = .ok (c', e) ∧
        (c'.variable_registers 0xF = 0 ∨ c'.variable_registers 0xF = 1)) ∧
    (fetchWord c = 0x8005 + 256 * x + 16 * y → x ≠ 0xF →
      ∃ c' e, Cpu.step c rand = .ok (c', e) ∧
        (c'.variable_registers 0xF = 0 ∨ c'.variable_registers 0xF = 1)) ∧
    (fetchWord c = 0x8006 + 256 * x + 16 * y →
      ∃ c' e, Cpu.step c rand = .ok (c', e) ∧
        (c'.variable_registers 0xF = 0 ∨ c'.variable_registers 0xF = 1)) ∧
    (fetchWord c = 0x8007 + 256 * x + 16 * y → x ≠ 0xF →
      ∃ c' e, Cpu.step c rand = .ok (c', e) ∧
        (c'.variable_registers 0xF = 0 ∨ c'.variable_registers 0xF = 1)) ∧
    (fetchWord c = 0x800E + 256 * x + 16 * y → x ≠ 0xF →
      ∃ c' e, Cpu.step c rand = .ok (c', e) ∧
        (c'.variable_registers 0xF = 0 ∨ c'.variable_registers 0xF = 1)) ∧
    (fetchWord c = 0xD000 + 256 * x + 16 * y + n →
      (∀ i, i < n → c.variable_registers y % 32 + i < 32 → c.index_register + i < 4096) →
      ∃ c' e, Cpu.step c rand = .ok (c', e) ∧
        (c'.variable_registers 0xF = 0 ∨ c'.variable_registers 0xF = 1)) := by
  refine ⟨?_, ?_, ?_, ?_, ?_, ?_⟩
  · intro hfw hxF
    have hop : fetchWord c / 4096 % 16 = 8 := by omega
    have hxx : fetchWord c / 256 % 16 = x := by omega
    have hyy : fetchWord c / 16 % 16 = y := by omega
    have hnib : fetchWord c % 16 = 4 := by omega
    simp only [Cpu.step, hop, hxx, hyy, hnib]
    norm_num [Except.map]
    rw [Function.update_noteq (Ne.symm hxF), Function.update_same]
    split
    · right; rfl
    · left; rfl
  · intro hfw hxF
    have hop : fetchWord c / 4096 % 16 = 8 := by omega
    have hxx : fetchWord c / 256 % 16 = x := by omega
    have hyy : fetchWord c / 16 % 16 = y := by omega
    have hnib : fetchWord c % 16 = 5 := by omega
    simp only [Cpu.step, hop, hxx, hyy, hnib]
    norm_num [Except.map]
    rw [Function.update_noteq (Ne.symm hxF), Function.update_same]
    split
    · right; rfl
    · left; rfl
  · intro hfw
    have hop : fetchWord c / 4096 % 16 = 8 := by omega
    have hxx : fetchWord c / 256 % 16 = x := by omega
    have hyy : fetchWord c / 16 % 16 = y := by omega
    have hnib : fetchWord c % 16 = 6 := by omega
    simp only [Cpu.step, hop, hxx, hyy, hnib]
    norm_num [Except.map]
    by_cases hxF : x = 0xF
    · subst hxF
      rw [Function.update_same, hxx, Function.update_same, Nat.shiftRight_eq_div_pow]
      omega
    · rw [Function.update_noteq (Ne.symm hxF), Function.update_same]
      omega
  · intro hfw hxF
    have hop : fetchWord c / 4096 % 16 = 8 := by omega
    have hxx : fetchWord c / 256 % 16 = x := by omega
    have hyy : fetchWord c / 16 % 16 = y := by omega
    have hnib : fetchWord c % 16 = 7 := by omega
    simp only [Cpu.step, hop, hxx, hyy, hnib]
    norm_num [Except.map]
    rw [Function.update_noteq (Ne.symm hxF), Function.update_same]
    split
    · right; rfl
    · left; rfl
  · intro hfw hxF
    have hop : fetchWord c / 4096 % 16 = 8 := by omega
    have hxx : fetchWord c / 256 % 16 = x := by omega
    have hyy : fetchWord c / 16 % 16 = y := by omega
    have hnib : fetchWord c % 16 = 14 := by omega
    simp only [Cpu.step, hop, hxx, hyy, hnib]
    norm_num [Except.map]
    rw [Function.update_noteq (Ne.symm hxF), Function.update_same]
    rw [show (0x80 : Nat) = 2 ^ 7 from rfl, Nat.and_two_pow,
      Nat.shiftRight_eq_div_pow]
    rcases Bool.eq_false_or_eq_true ((c.variable_registers x).testBit 7) with hb | hb <;>
      rw [hb] <;> norm_num
  · intro hfw hIb
    have hop : fetchWord c / 4096 % 16 = 13 := by omega
    have hxx : fetchWord c / 256 % 16 = x := by omega
    have hyy : fetchWord c / 16 % 16 = y := by omega
    have hnib : fetchWord c % 16 = n := by omega
    simp only [Cpu.step, hop, hxx, hyy, hnib]
    rw [drawFold_ok_of_inbounds c.memory c.index_register
      (c.variable_registers y % 32) (c.variable_registers x % 64)
      (drawRows (c.variable_registers y % 32) n)
      (drawRows_inbounds _ _ _ hIb)]
    norm_num [Except.map]
    exact drawFold_vf_zero_or_one _ _ _ _ _ _ _ (Or.inl rfl)

/-- Witness for `flag_writes_zero_or_one`: all six flag-writing opcodes on
fresh machines with `x = 0`, `y = 1`. -/
theorem flag_writes_zero_or_one_witness :
    (∃ c' e, Cpu.step (sampleCpu [0x80, 0x14]) 0 = .ok (c', e) ∧
      (c'.variable_registers 0xF = 0 ∨ c'.variable_registers 0xF = 1)) ∧
    (∃ c' e, Cpu.step (sampleCpu [0x80, 0x15]) 0 = .ok (c', e) ∧
      (c'.variable_registers 0xF = 0 ∨ c'.variable_registers 0xF = 1)) ∧
    (∃ c' e, Cpu.step (sampleCpu [0x80, 0x16]) 0 = .ok (c', e) ∧
      (c'.variable_registers 0xF = 0 ∨ c'.variable_registers 0xF = 1)) ∧
    (∃ c' e, Cpu.step (sampleCpu [0x80, 0x17]) 0 = .ok (c', e) ∧
      (c'.variable_registers 0xF = 0 ∨ c'.variable_registers 0xF = 1)) ∧
    (∃ c' e, Cpu.step (sampleCpu [0x80, 0x1E]) 0 = .ok (c', e) ∧
      (c'.variable_registers 0xF = 0 ∨ c'.variable_registers 0xF = 1)) ∧
    (∃ c' e, Cpu.step (sampleCpu [0xD0, 0x12]) 0 = .ok (c', e) ∧
      (c'.variable_registers 0xF = 0 ∨ c'.variable_registers 0xF = 1)) :=
  ⟨(flag_writes_zero_or_one (sampleCpu [0x80, 0x14]) 0 0 1 0
      (by decide) (by decide) (by decide)).1 (by decide) (by decide),
   (flag_writes_zero_or_one (sampleCpu [0x80, 0x15]) 0 0 1 0
      (by decide) (by decide) (by decide)).2.1 (by decide) (by decide),
   (flag_writes_zero_or_one (sampleCpu [0x80, 0x16]) 0 0 1 0
      (by decide) (by decide) (by decide)).2.2.1 (by decide),
   (flag_writes_zero_or_one (sampleCpu [0x80, 0x17]) 0 0 1 0
      (by decide) (by decide) (by decide)).2.2.2.1 (by decide) (by decide),
   (flag_writes_zero_or_one (sampleCpu [0x80, 0x1E]) 0 0 1 0
      (by decide) (by decide) (by decide)).2.2.2.2.1 (by decide) (by decide),
   (flag_writes_zero_or_one (sampleCpu [0xD0, 0x12]) 0 0 1 2
      (by decide) (by decide) (by decide)).2.2.2.2.2 (by decide) (by decide)⟩

/-- Test state for the `x = 0xF` flag clobber: `VF = 5`, `V1 = 10`,
program `8F14` (add `V1` into `VF`). -/
def addIntoVFCpu : Cpu :=
  { sampleCpu [0x8F, 0x14] with
    variable_registers := fun i => if i = 0xF then 5 else if i = 1 then 10 else 0 }

/-- C4 counterexample: `8F14` with `VF = 5`, `V1 = 10` leaves `VF = 15`
(the wrapped sum overwrites the freshly written carry flag), refuting
"including the case where the selector x is itself 0xF, the value of VF
after the instruction is exactly 0 or exactly 1". -/
theorem add_into_vf_counterexample :
    (Cpu.step addIntoVFCpu 0).map (fun r => r.1.variable_registers 0xF) = .ok 15 ∧
    ¬((15 : Nat) = 0 ∨ (15 : Nat) = 1) := by
  constructor
  · rfl
  · decide

end Chip8

namespace Chip8

/-- C9: for a start column past 56, the sprite byte is shifted right, the
mask fits below `2 ^ (64 - x_start)` (bits that would land past column 63
are discarded), and XOR-ing the mask into a row never changes a pixel in
columns `[0, x_start)` (column `c` is bit `63 - c` of the row word). -/
theorem sprite_right_clip (x_start byte row : Nat)
    (h56 : 56 < x_start) (h64 : x_start < 64) (hb : byte < 256) :
    spriteMask x_start byte = byte >>> (x_start - 56) ∧
    spriteMask x_start byte < 2 ^ (64 - x_start) ∧
    (∀ col, col < x_start →
      (row ^^^ spriteMask x_start byte).testBit (63 - col) = row.testBit (63 - col)) := by
  have hmask : spriteMask x_start byte = byte >>> (x_start - 56) := by
    unfold spriteMask
    rw [if_neg (by omega), if_neg (by omega)]
  have hlt : spriteMask x_start byte < 2 ^ (64 - x_start) := by
    rw [hmask, Nat.shiftRight_eq_div_pow]
    have h8 : (2 : Nat) ^ (64 - x_start) * 2 ^ (x_start - 56) = 2 ^ 8 := by
      rw [← pow_add]
      congr 1
      omega
    rw [Nat.div_lt_iff_lt_mul (Nat.pos_pow_of_pos _ (by norm_num)), h8]
    omega
  refine ⟨hmask, hlt, ?_⟩
  intro col hcol
  rw [Nat.testBit_xor]
  have hbit : (spriteMask x_start byte).testBit (63 - col) = false := by
    apply Nat.testBit_eq_false_of_lt
    calc spriteMask x_start byte < 2 ^ (64 - x_start) := hlt
      _ ≤ 2 ^ (63 - col) := Nat.pow_le_pow_right (by norm_num) (by omega)
  rw [hbit, Bool.xor_false]

/-- Witness for `sprite_right_clip` at `x_start = 60`, `byte = 0xFF`. -/
theorem sprite_right_clip_witness :
    spriteMask 60 0xFF = 0xFF >>> (60 - 56) ∧
    spriteMask 60 0xFF < 2 ^ (64 - 60) ∧
    (∀ col, col < 60 →
      ((12345 : Nat) ^^^ spriteMask 60 0xFF).testBit (63 - col) =
        (12345 : Nat).testBit (63 - col)) :=
  sprite_right_clip 60 0xFF 12345 (by decide) (by decide) (by decide)

/-- Screen contents after the `DXYN` row loop: each row in the list is its
old value XOR the positioned sprite byte for that row; every other row is
untouched. -/
theorem drawFold_screen (mem : Nat → Nat) (index y_start x_start : Nat) :
    ∀ (rows : List Nat), rows.Nodup → ∀ (s : Nat → Nat) (v : Nat) (r : Nat),
      (rows.foldl (drawStepPure mem index y_start x_start) (s, v)).1 r =
        if r ∈ rows then
          s r ^^^ spriteMask x_start (mem (index + (r - y_start)) % 256)
        else s r := by
  intro rows
  induction rows with
  | nil => intro _ s v r; simp
  | cons yy t ih =>
      intro hnd s v r
      have hnd' := List.nodup_cons.mp hnd
      rw [List.foldl_cons]
      rw [show drawStepPure mem index y_start x_start (s, v) yy =
        (Function.update s yy
          (s yy ^^^ spriteMask x_start (mem (index + (yy - y_start)) % 256)),
         if spriteMask x_start (mem (index + (yy - y_start)) % 256) &&& s yy ≠ 0
         then 1 else v) from rfl]
      rw [ih hnd'.2]
      by_cases hr : r = yy
      · subst hr
        rw [if_neg hnd'.1, Function.update_same, if_pos (List.mem_cons_self _ _)]
      · rw [Function.update_noteq hr]
        by_cases hrt : r ∈ t
        · rw [if_pos hrt, if_pos (List.mem_cons_of_mem _ hrt)]
        · rw [if_neg hrt, if_neg (by simp [List.mem_cons, hr, hrt])]

/-- The collision flag after the `DXYN` row loop: 1 exactly when some drawn
row's positioned sprite byte overlaps a previously set pixel (the XOR
would clear it), otherwise the initial accumulator value. -/
theorem drawFold_vf (mem : Nat → Nat) (index y_start x_start : Nat) :
    ∀ (rows : List Nat), rows.Nodup → ∀ (s : Nat → Nat) (v : Nat),
      (rows.foldl (drawStepPure mem index y_start x_start) (s, v)).2 =
        if ∃ r ∈ rows, spriteMask x_start (mem (index + (r - y_start)) % 256) &&& s r ≠ 0
        then 1 else v := by
  intro rows
  induction rows with
  | nil => intro _ s v; simp
  | cons yy t ih =>
      intro hnd s v
      have hnd' := List.nodup_cons.mp hnd
      rw [List.foldl_cons]
      rw [show drawStepPure mem index y_start x_start (s, v) yy =
        (Function.update s yy
          (s yy ^^^ spriteMask x_start (mem (index + (yy - y_start)) % 256)),
         if spriteMask x_start (mem (index + (yy - y_start)) % 256) &&& s yy ≠ 0
         then 1 else v) from rfl]
      rw [ih hnd'.2]
      have hiff : (∃ r ∈ t, spriteMask x_start (mem (index + (r - y_start)) % 256) &&&
            Function.update s yy
              (s yy ^^^ spriteMask x_start (mem (index + (yy - y_start)) % 256)) r ≠ 0) ↔
          (∃ r ∈ t, spriteMask x_start (mem (index + (r - y_start)) % 256) &&& s r ≠ 0) := by
        constructor
        · rintro ⟨r, hrt, hcol⟩
          have hne : r ≠ yy := fun h => hnd'.1 (h ▸ hrt)
          exact ⟨r, hrt, by rwa [Function.update_noteq hne] at hcol⟩
        · rintro ⟨r, hrt, hcol⟩
          have hne : r ≠ yy := fun h => hnd'.1 (h ▸ hrt)
          exact ⟨r, hrt, by rwa [Function.update_noteq hne]⟩
      rw [if_congr hiff rfl rfl]
      by_cases hE : ∃ r ∈ t, spriteMask x_start (mem (index + (r - y_start)) % 256) &&& s r ≠ 0
      · rcases hE with ⟨r, hrt, hcol⟩
        rw [if_pos ⟨r, hrt, hcol⟩, if_pos ⟨r, List.mem_cons_of_mem _ hrt, hcol⟩]
      · rw [if_neg hE]
        by_cases hyycol : spriteMask x_start (mem (index + (yy - y_start)) % 256) &&& s yy ≠ 0
        · rw [if_pos hyycol, if_pos ⟨yy, List.mem_cons_self _ _, hyycol⟩]
        · rw [if_neg hyycol, if_neg ?_]
          rintro ⟨r, hr, hcol⟩
          rcases List.mem_cons.mp hr with h | h
          · exact hyycol (h ▸ hcol)
          · exact hE ⟨r, h, hcol⟩

/-- C6 (amended): provided each drawn row's sprite read `index + i` lies
inside the 4096-byte memory, `DXYN` draws from start coordinates
`(Vx mod 64, Vy mod 32)`; each in-range sprite row `i < N` XORs the
positioned byte `memory[index + i]` into display row `y_start + i`; rows
at or past 32 are dropped and all other rows are untouched; `VF = 1`
exactly when some drawn row overlaps a previously set pixel, and is 0 or
1; exactly one snapshot — the final buffer — is emitted, after all rows
are updated.  Without that proviso the sprite read aborts the instruction
with a fatal out-of-bounds error and no snapshot is emitted (see the
counterexample). -/
theorem draw_spec (c : Cpu) (rand x y n : Nat)
    (hx : x < 16) (hy : y < 16) (hn : n < 16)
    (hfw : fetchWord c = 0xD000 + 256 * x + 16 * y + n)
    (hIb : ∀ i, i < n → c.variable_registers y % 32 + i < 32 →
      c.index_register + i < 4096) :
    ∃ c', Cpu.step c rand = .ok (c', [c'.screen_pixels]) ∧
      c'.program_counter = c.program_counter + 2 ∧
      (∀ i, i < n → c.variable_registers y % 32 + i < 32 →
        c'.screen_pixels (c.variable_registers y % 32 + i) =
          c.screen_pixels (c.variable_registers y % 32 + i) ^^^
            spriteMask (c.variable_registers x % 64)
              (c.memory (c.index_register + i) % 256)) ∧
      (∀ r, 32 ≤ r ∨ (∀ i, i < n → r ≠ c.variable_registers y % 32 + i) →
        c'.screen_pixels r = c.screen_pixels r) ∧
      (c'.variable_registers 0xF = 1 ↔
        ∃ i, i < n ∧ c.variable_registers y % 32 + i < 32 ∧
          spriteMask (c.variable_registers x % 64) (c.memory (c.index_register + i) % 256) &&&
            c.screen_pixels (c.variable_registers y % 32 + i) ≠ 0) ∧
      (c'.variable_registers 0xF = 0 ∨ c'.variable_registers 0xF = 1) := by
  have hop : fetchWord c / 4096 % 16 = 13 := by omega
  have hxx : fetchWord c / 256 % 16 = x := by omega
  have hyy : fetchWord c / 16 % 16 = y := by omega
  have hnib : fetchWord c % 16 = n := by omega
  simp only [Cpu.step, hop, hxx, hyy, hnib]
  rw [drawFold_ok_of_inbounds c.memory c.index_register
    (c.variable_registers y % 32) (c.variable_registers x % 64)
    (drawRows (c.variable_registers y % 32) n)
    (drawRows_inbounds _ _ _ hIb)]
  norm_num [Except.map]
  refine ⟨_, ⟨rfl, rfl⟩, rfl, ?_, ?_, ?_, ?_⟩
  · intro i hi h32
    show (List.foldl
        (drawStepPure c.memory c.index_register (c.variable_registers y % 32)
          (c.variable_registers x % 64))
        (c.screen_pixels, 0) (drawRows (c.variable_registers y % 32) n)).1
        (c.variable_registers y % 32 + i) = _
    rw [drawFold_screen c.memory c.index_register (c.variable_registers y % 32)
      (c.variable_registers x % 64) (drawRows (c.variable_registers y % 32) n)
      (drawRows_nodup _ _)]
    rw [if_pos ((mem_drawRows _ _ _).mpr ⟨⟨i, hi, rfl⟩, h32⟩), Nat.add_sub_cancel_left]
  · intro r hr
    show (List.foldl
        (drawStepPure c.memory c.index_register (c.variable_registers y % 32)
          (c.variable_registers x % 64))
        (c.screen_pixels, 0) (drawRows (c.variable_registers y % 32) n)).1 r = _
    rw [drawFold_screen c.memory c.index_register (c.variable_registers y % 32)
      (c.variable_registers x % 64) (drawRows (c.variable_registers y % 32) n)
      (drawRows_nodup _ _)]
    rw [if_neg]
    intro hmem
    rcases (mem_drawRows _ _ _).mp hmem with ⟨⟨i, hi, hri⟩, h32⟩
    rcases hr with h | h
    · omega
    · exact h i hi hri
  · show Function.update c.variable_registers 15
        (List.foldl
          (drawStepPure c.memory c.index_register (c.variable_registers y % 32)
            (c.variable_registers x % 64))
          (c.screen_pixels, 0) (drawRows (c.variable_registers y % 32) n)).2 15 = 1 ↔ _
    rw [Function.update_same]
    rw [drawFold_vf c.memory c.index_register (c.variable_registers y % 32)
      (c.variable_registers x % 64) (drawRows (c.variable_registers y % 32) n)
      (drawRows_nodup _ _)]
    by_cases hc : ∃ r ∈ drawRows (c.variable_registers y % 32) n,
        spriteMask (c.variable_registers x % 64)
          (c.memory (c.index_register + (r - c.variable_registers y % 32)) % 256) &&&
          c.screen_pixels r ≠ 0
    · rw [if_pos hc]
      simp only [true_iff]
      rcases hc with ⟨r, hrmem, hcol⟩
      rcases (mem_drawRows _ _ _).mp hrmem with ⟨⟨i, hi, hri⟩, h32⟩
      subst hri
      rw [Nat.add_sub_cancel_left] at hcol
      exact ⟨i, hi, h32, hcol⟩
    · rw [if_neg hc]
      constructor
      · intro h01
        exact absurd h01 (by norm_num)
      · rintro ⟨i, hi, h32, hcol⟩
        exact absurd ⟨c.variable_registers y % 32 + i,
          (mem_drawRows _ _ _).mpr ⟨⟨i, hi, rfl⟩, h32⟩,
          by rwa [Nat.add_sub_cancel_left]⟩ hc
  · exact drawFold_vf_zero_or_one _ _ _ _ _ _ _ (Or.inl rfl)

/-- Witness for `draw_spec`: `D012` (draw the 2-row sprite at `(V0, V1)`)
on a fresh machine. -/
theorem draw_spec_witness :
    ∃ c', Cpu.step (sampleCpu [0xD0, 0x12]) 0 = .ok (c', [c'.screen_pixels]) ∧
      c'.program_counter = (sampleCpu [0xD0, 0x12]).program_counter + 2 ∧
      (∀ i, i < 2 →
        (sampleCpu [0xD0, 0x12]).variable_registers 1 % 32 + i < 32 →
        c'.screen_pixels ((sampleCpu [0xD0, 0x12]).variable_registers 1 % 32 + i) =
          (sampleCpu [0xD0, 0x12]).screen_pixels
              ((sampleCpu [0xD0, 0x12]).variable_registers 1 % 32 + i) ^^^
            spriteMask ((sampleCpu [0xD0, 0x12]).variable_registers 0 % 64)
              ((sampleCpu [0xD0, 0x12]).memory ((sampleCpu [0xD0, 0x12]).index_register + i) % 256)) ∧
      (∀ r, 32 ≤ r ∨ (∀ i, i < 2 →
          r ≠ (sampleCpu [0xD0, 0x12]).variable_registers 1 % 32 + i) →
        c'.screen_pixels r = (sampleCpu [0xD0, 0x12]).screen_pixels r) ∧
      (c'.variable_registers 0xF = 1 ↔
        ∃ i, i < 2 ∧ (sampleCpu [0xD0, 0x12]).variable_registers 1 % 32 + i < 32 ∧
          spriteMask ((sampleCpu [0xD0, 0x12]).variable_registers 0 % 64)
              ((sampleCpu [0xD0, 0x12]).memory ((sampleCpu [0xD0, 0x12]).index_register + i) % 256) &&&
            (sampleCpu [0xD0, 0x12]).screen_pixels
              ((sampleCpu [0xD0, 0x12]).variable_registers 1 % 32 + i) ≠ 0) ∧
      (c'.variable_registers 0xF = 0 ∨ c'.variable_registers 0xF = 1) :=
  draw_spec (sampleCpu [0xD0, 0x12]) 0 0 1 2 (by decide) (by decide) (by decide) (by decide)
    (by decide)

/-- The machine after executing `AFFF` on a fresh machine loaded with
`AF FF D0 02`: the index register holds `0xFFF` and `pc` points at the
`D002` draw. -/
def oobDrawCpu : Cpu :=
  { sampleCpu [0xAF, 0xFF, 0xD0, 0x02] with
    program_counter := 0x202
    index_register := 0xFFF }

/-- C6 counterexample: running the two-instruction program `AFFF; D002`,
the `ANNN` step sets `index = 0xFFF`, and the following `D002` draw aborts
on its second row's sprite read `memory[0x1000]` — an index 4096 past the
4096-byte memory — so the draw instruction fails fatally and emits no
snapshot, refuting "exactly one display snapshot is emitted per draw
instruction". -/
theorem draw_oob_counterexample :
    Cpu.step (sampleCpu [0xAF, 0xFF, 0xD0, 0x02]) 0 = .ok (oobDrawCpu, []) ∧
    Cpu.step oobDrawCpu 0 = .error (.memoryOutOfBounds 4096) := by
  constructor
  · rfl
  · rfl

end Chip8
